import Mathlib

/-!
Shallow embedding of the veml6075 UVA/UVB light-sensor driver
(`src/lib.rs` together with `src/device_impl.rs`).

The I2C transport is modelled as a mock bus: a stream of programmed
replies indexed by transaction number, a transaction counter, and a
trace of every transaction attempted so far (an attempt is recorded
whether it succeeds or fails, mirroring what appears on the wire).
Machine integers (`u8`, `u16`) are modelled as `Nat`; response bytes
are reduced mod 256 when the mock fills the 2-byte read buffer, and
every configuration byte the driver builds is produced by masking
with 8-bit constants exactly as the source does.
-/

/-- One bus transaction as attempted on the wire. -/
inductive Transaction where
  | write (addr : Nat) (bytes : List Nat)
  | writeRead (addr : Nat) (request : List Nat) (response : List Nat)
deriving DecidableEq

/-- Reply the transport adapter produces for one transaction. -/
inductive BusReply (E : Type) where
  | ok (response : List Nat)
  | err (e : E)

/-- Mock transport adapter: programmed replies, transaction counter, trace. -/
structure I2c (E : Type) where
  replies : Nat → BusReply E
  count : Nat
  trace : List Transaction

/-- `embedded_hal::blocking::i2c::Write::write`: attempt one write
transaction; the attempt is recorded in the trace either way. -/
def I2c.busWrite {E : Type} (bus : I2c E) (addr : Nat) (bytes : List Nat) :
    Except E Unit × I2c E :=
  match bus.replies bus.count with
  | BusReply.ok _ =>
      (Except.ok (),
        ⟨bus.replies, bus.count + 1, bus.trace ++ [Transaction.write addr bytes]⟩)
  | BusReply.err e =>
      (Except.error e,
        ⟨bus.replies, bus.count + 1, bus.trace ++ [Transaction.write addr bytes]⟩)

/-- `embedded_hal::blocking::i2c::WriteRead::write_read` with the fixed
2-byte buffer `[0; 2]` the driver passes: on success the mock fills the
buffer with its programmed response bytes (bytes on the wire, hence
mod 256); on failure the buffer keeps its zeroes. -/
def I2c.busWriteRead {E : Type} (bus : I2c E) (addr : Nat) (request : List Nat) :
    Except E (List Nat) × I2c E :=
  match bus.replies bus.count with
  | BusReply.ok resp =>
      (Except.ok [resp.getD 0 0 % 256, resp.getD 1 0 % 256],
        ⟨bus.replies, bus.count + 1,
          bus.trace ++ [Transaction.writeRead addr request
            [resp.getD 0 0 % 256, resp.getD 1 0 % 256]]⟩)
  | BusReply.err e =>
      (Except.error e,
        ⟨bus.replies, bus.count + 1,
          bus.trace ++ [Transaction.writeRead addr request [0, 0]]⟩)

namespace Register

/-- `Register::CONFIG` -/
def CONFIG : Nat := 0x00

/-- `Register::UVA` -/
def UVA : Nat := 0x07

/-- `Register::UVB` -/
def UVB : Nat := 0x09

/-- `Register::UVCOMP1` -/
def UVCOMP1 : Nat := 0x0A

/-- `Register::UVCOMP2` -/
def UVCOMP2 : Nat := 0x0B

/-- `Register::DEVICE_ID` -/
def DEVICE_ID : Nat := 0x0C

end Register

namespace BitFlags

/-- `BitFlags::SHUTDOWN` -/
def SHUTDOWN : Nat := 0b00000001

/-- `BitFlags::HD` -/
def HD : Nat := 0b00001000

/-- `BitFlags::UV_TRIG` -/
def UV_TRIG : Nat := 0b00000100

/-- `BitFlags::UV_AF` -/
def UV_AF : Nat := 0b00000010

end BitFlags

/-- `DEVICE_ADDRESS` -/
def DEVICE_ADDRESS : Nat := 0x10

/-- `enum Error<E>`: the single error variant wrapping a transport error. -/
inductive Error (E : Type) where
  | I2C (e : E)
deriving DecidableEq

/-- `enum Mode` -/
inductive Mode where
  | Continuous
  | ActiveForce
deriving DecidableEq

/-- `enum IntegrationTime` -/
inductive IntegrationTime where
  | Ms50
  | Ms100
  | Ms200
  | Ms400
  | Ms800
deriving DecidableEq

/-- `enum DynamicSetting` -/
inductive DynamicSetting where
  | Normal
  | High
deriving DecidableEq

/-- `struct Measurement`: the result of a raw read of all channels. -/
structure Measurement where
  uva : Nat
  uvb : Nat
  uvcomp1 : Nat
  uvcomp2 : Nat
deriving DecidableEq

/-- `struct Veml6075<I2C>`: the transport handle plus the configuration
shadow byte. -/
structure Veml6075 (E : Type) where
  i2c : I2c E
  config : Nat

namespace Veml6075

/-- `Veml6075::new`: store the bus handle, shadow starts at `0x01` (shutdown).
No bus transaction is performed. -/
def new {E : Type} (i2c : I2c E) : Veml6075 E :=
  ⟨i2c, 0x01⟩

/-- `Veml6075::destroy`: hand the bus handle back. -/
def destroy {E : Type} (d : Veml6075 E) : I2c E :=
  d.i2c

/-- `Veml6075::write_config`: write `[CONFIG, config, 0]`; only on success
update the shadow to the written value. -/
def write_config {E : Type} (d : Veml6075 E) (config : Nat) :
    Except (Error E) Unit × Veml6075 E :=
  match d.i2c.busWrite DEVICE_ADDRESS [Register.CONFIG, config, 0] with
  | (Except.ok _, bus) => (Except.ok (), ⟨bus, config⟩)
  | (Except.error e, bus) => (Except.error (Error.I2C e), ⟨bus, d.config⟩)

/-- `Veml6075::enable`: `config & !SHUTDOWN` (`!` on `u8` is `0xFF ^^^ ·`). -/
def enable {E : Type} (d : Veml6075 E) : Except (Error E) Unit × Veml6075 E :=
  d.write_config (d.config &&& (0xFF ^^^ BitFlags.SHUTDOWN))

/-- `Veml6075::disable`: `config | SHUTDOWN`. -/
def disable {E : Type} (d : Veml6075 E) : Except (Error E) Unit × Veml6075 E :=
  d.write_config (d.config ||| BitFlags.SHUTDOWN)

/-- `Veml6075::set_mode`. -/
def set_mode {E : Type} (d : Veml6075 E) (mode : Mode) :
    Except (Error E) Unit × Veml6075 E :=
  d.write_config
    (match mode with
     | Mode.Continuous => d.config &&& (0xFF ^^^ BitFlags.UV_AF)
     | Mode.ActiveForce => d.config ||| BitFlags.UV_AF)

/-- `Veml6075::trigger_measurement`: one-shot write of
`config | UV_TRIG`; the shadow is not updated. -/
def trigger_measurement {E : Type} (d : Veml6075 E) :
    Except (Error E) Unit × Veml6075 E :=
  match d.i2c.busWrite DEVICE_ADDRESS
      [Register.CONFIG, d.config ||| BitFlags.UV_TRIG, 0] with
  | (Except.ok _, bus) => (Except.ok (), ⟨bus, d.config⟩)
  | (Except.error e, bus) => (Except.error (Error.I2C e), ⟨bus, d.config⟩)

/-- `Veml6075::set_integration_time`. -/
def set_integration_time {E : Type} (d : Veml6075 E) (it : IntegrationTime) :
    Except (Error E) Unit × Veml6075 E :=
  d.write_config
    (match it with
     | IntegrationTime.Ms50 => d.config &&& 0b10001111
     | IntegrationTime.Ms100 => (d.config &&& 0b10001111) ||| 1 <<< 4
     | IntegrationTime.Ms200 => (d.config &&& 0b10001111) ||| 2 <<< 4
     | IntegrationTime.Ms400 => (d.config &&& 0b10001111) ||| 3 <<< 4
     | IntegrationTime.Ms800 => (d.config &&& 0b10001111) ||| 4 <<< 4)

/-- `Veml6075::set_dynamic_setting`. -/
def set_dynamic_setting {E : Type} (d : Veml6075 E) (ds : DynamicSetting) :
    Except (Error E) Unit × Veml6075 E :=
  d.write_config
    (match ds with
     | DynamicSetting.Normal => d.config &&& (0xFF ^^^ BitFlags.HD)
     | DynamicSetting.High => d.config ||| BitFlags.HD)

/-- `Veml6075::read_register`: write-read against one register, then decode
`u16::from(data[1]) << 8 | u16::from(data[0])` (little-endian). -/
def read_register {E : Type} (d : Veml6075 E) (register : Nat) :
    Except (Error E) Nat × Veml6075 E :=
  match d.i2c.busWriteRead DEVICE_ADDRESS [register] with
  | (Except.ok data, bus) =>
      (Except.ok (data.getD 1 0 <<< 8 ||| data.getD 0 0), ⟨bus, d.config⟩)
  | (Except.error e, bus) => (Except.error (Error.I2C e), ⟨bus, d.config⟩)

/-- `Veml6075::read_uva` -/
def read_uva {E : Type} (d : Veml6075 E) : Except (Error E) Nat × Veml6075 E :=
  d.read_register Register.UVA

/-- `Veml6075::read_uvb` -/
def read_uvb {E : Type} (d : Veml6075 E) : Except (Error E) Nat × Veml6075 E :=
  d.read_register Register.UVB

/-- `Veml6075::read_uvcomp1` -/
def read_uvcomp1 {E : Type} (d : Veml6075 E) : Except (Error E) Nat × Veml6075 E :=
  d.read_register Register.UVCOMP1

/-- `Veml6075::read_uvcomp2` -/
def read_uvcomp2 {E : Type} (d : Veml6075 E) : Except (Error E) Nat × Veml6075 E :=
  d.read_register Register.UVCOMP2

/-- `Veml6075::read_device_id` -/
def read_device_id {E : Type} (d : Veml6075 E) : Except (Error E) Nat × Veml6075 E :=
  d.read_register Register.DEVICE_ID

/-- `Veml6075::read_all`: the four channel reads in order, aborting on the
first failure (`?` operator). -/
def read_all {E : Type} (d : Veml6075 E) :
    Except (Error E) Measurement × Veml6075 E :=
  match d.read_uva with
  | (Except.error e, d1) => (Except.error e, d1)
  | (Except.ok uva, d1) =>
    match d1.read_uvb with
    | (Except.error e, d2) => (Except.error e, d2)
    | (Except.ok uvb, d2) =>
      match d2.read_uvcomp1 with
      | (Except.error e, d3) => (Except.error e, d3)
      | (Except.ok uvcomp1, d3) =>
        match d3.read_uvcomp2 with
        | (Except.error e, d4) => (Except.error e, d4)
        | (Except.ok uvcomp2, d4) =>
            (Except.ok ⟨uva, uvb, uvcomp1, uvcomp2⟩, d4)

end Veml6075

/-- Modelled from the spec: `struct Calibration` of the calibrated-measurement
variant is absent from `src/` (only `tests/tests.rs` uses it); its six
floating-point coefficients are modelled as exact rationals (§3 of the spec). -/
structure Calibration where
  uva_visible : ℚ
  uva_ir : ℚ
  uvb_visible : ℚ
  uvb_ir : ℚ
  uva_responsivity : ℚ
  uvb_responsivity : ℚ
deriving DecidableEq

/-- Modelled from the spec: `Calibration::default`, the documented default
coefficients `{2.22, 1.33, 2.95, 1.74, 0.001461, 0.002591}`. -/
def Calibration.default : Calibration :=
  ⟨222 / 100, 133 / 100, 295 / 100, 174 / 100, 1461 / 1000000, 2591 / 1000000⟩

/-- Modelled from the spec: the calibrated `Measurement` value object
(floating-point UVA, UVB and UV-index, modelled as rationals). -/
structure CalibratedMeasurement where
  uva : ℚ
  uvb : ℚ
  uv_index : ℚ
deriving DecidableEq

/-- Modelled from the spec: the calibrated-variant `read()` is absent from
`src/`; per §4.3 it performs the four raw reads of §4.2 (same fixed order,
same abort-on-first-error policy, here via `read_all`) and then applies the
documented linear compensation formula. -/
def Veml6075.read {E : Type} (d : Veml6075 E) (cal : Calibration) :
    Except (Error E) CalibratedMeasurement × Veml6075 E :=
  match Veml6075.read_all d with
  | (Except.error e, dev) => (Except.error e, dev)
  | (Except.ok raw, dev) =>
      (Except.ok
        ⟨(raw.uva : ℚ) - cal.uva_visible * (raw.uvcomp1 : ℚ)
            - cal.uva_ir * (raw.uvcomp2 : ℚ),
         (raw.uvb : ℚ) - cal.uvb_visible * (raw.uvcomp1 : ℚ)
            - cal.uvb_ir * (raw.uvcomp2 : ℚ),
         (((raw.uva : ℚ) - cal.uva_visible * (raw.uvcomp1 : ℚ)
              - cal.uva_ir * (raw.uvcomp2 : ℚ)) * cal.uva_responsivity
           + ((raw.uvb : ℚ) - cal.uvb_visible * (raw.uvcomp1 : ℚ)
              - cal.uvb_ir * (raw.uvcomp2 : ℚ)) * cal.uvb_responsivity) / 2⟩,
        dev)

/-- The 3-bit integration-time code of the configuration register
(`0,1,2,3,4` for `50,100,200,400,800` ms). -/
def itCode : IntegrationTime → Nat
  | IntegrationTime.Ms50 => 0
  | IntegrationTime.Ms100 => 1
  | IntegrationTime.Ms200 => 2
  | IntegrationTime.Ms400 => 3
  | IntegrationTime.Ms800 => 4

/-- A driver operation, for quantifying over every reachable driver state. -/
inductive Op where
  | opEnable
  | opDisable
  | opSetMode (m : Mode)
  | opSetIt (it : IntegrationTime)
  | opSetDs (ds : DynamicSetting)
  | opTrigger
  | opReadUva
  | opReadUvb
  | opReadUvcomp1
  | opReadUvcomp2
  | opReadDeviceId
  | opReadAll

/-- Run one driver operation, keeping only the updated driver state. -/
def runOp {E : Type} (op : Op) (d : Veml6075 E) : Veml6075 E :=
  match op with
  | Op.opEnable => (Veml6075.enable d).2
  | Op.opDisable => (Veml6075.disable d).2
  | Op.opSetMode m => (Veml6075.set_mode d m).2
  | Op.opSetIt it => (Veml6075.set_integration_time d it).2
  | Op.opSetDs ds => (Veml6075.set_dynamic_setting d ds).2
  | Op.opTrigger => (Veml6075.trigger_measurement d).2
  | Op.opReadUva => (Veml6075.read_uva d).2
  | Op.opReadUvb => (Veml6075.read_uvb d).2
  | Op.opReadUvcomp1 => (Veml6075.read_uvcomp1 d).2
  | Op.opReadUvcomp2 => (Veml6075.read_uvcomp2 d).2
  | Op.opReadDeviceId => (Veml6075.read_device_id d).2
  | Op.opReadAll => (Veml6075.read_all d).2

/-- Run a sequence of driver operations from a starting state. -/
def runOps {E : Type} (ops : List Op) (d : Veml6075 E) : Veml6075 E :=
  ops.foldl (fun s op => runOp op s) d

/-- Outcome contract of one configuration operation: on bus success the call
returns `Ok(())` and the shadow becomes the newly computed byte; on bus
failure the call returns the wrapped transport error and the shadow is left
exactly as before. -/
def opOutcome {E : Type} (d : Veml6075 E)
    (out : Except (Error E) Unit × Veml6075 E) (newVal : Nat) : Prop :=
  match d.i2c.replies d.i2c.count with
  | BusReply.ok _ => out.1 = Except.ok () ∧ out.2.config = newVal
  | BusReply.err e =>
      out.1 = Except.error (Error.I2C e) ∧ out.2.config = d.config

/-- Little-endian decoding of a 2-byte register response,
`low_byte ||| (high_byte <<< 8)`. -/
def decodeLE (l : List Nat) : Nat :=
  ((l.getD 1 0) % 256) <<< 8 ||| ((l.getD 0 0) % 256)

/-- Masking with `m` twice is the same as masking once. -/
theorem land_land_self (c m : Nat) : (c &&& m) &&& m = c &&& m := by
  rw [Nat.and_assoc, Nat.and_self]

/-- Bits of `a` outside the mask `m` do not affect a masked value. -/
theorem lor_land_of_disjoint (c a m : Nat) (h : a &&& m = 0) :
    (c ||| a) &&& m = c &&& m := by
  apply Nat.eq_of_testBit_eq
  intro i
  have h2 : (a &&& m).testBit i = Nat.testBit 0 i := by rw [h]
  rw [Nat.testBit_and, Nat.zero_testBit] at h2
  rw [Nat.testBit_and, Nat.testBit_or, Nat.testBit_and]
  cases hm : m.testBit i
  · simp
  · rw [hm] at h2
    simp only [Bool.and_true] at h2
    simp [h2]

/-- `write_config` always appends exactly one write transaction
`[CONFIG, byte, 0]` to the fixed device address, success or failure. -/
theorem writeConfig_trace {E : Type} (d : Veml6075 E) (c : Nat) :
    (Veml6075.write_config d c).2.i2c.trace =
      d.i2c.trace ++ [Transaction.write DEVICE_ADDRESS [Register.CONFIG, c, 0]] := by
  unfold Veml6075.write_config I2c.busWrite
  cases d.i2c.replies d.i2c.count <;> simp

/-- `write_config` satisfies the configuration-operation contract. -/
theorem writeConfig_outcome {E : Type} (d : Veml6075 E) (c : Nat) :
    opOutcome d (Veml6075.write_config d c) c := by
  unfold opOutcome Veml6075.write_config I2c.busWrite
  cases h : d.i2c.replies d.i2c.count <;> simp [h]

/-- After `write_config` the shadow is either the written byte (success)
or the previous shadow (failure). -/
theorem writeConfig_config_cases {E : Type} (d : Veml6075 E) (c : Nat) :
    (Veml6075.write_config d c).2.config = c ∨
    (Veml6075.write_config d c).2.config = d.config := by
  unfold Veml6075.write_config I2c.busWrite
  cases d.i2c.replies d.i2c.count <;> simp

/-- `trigger_measurement` appends exactly one write transaction with byte
`shadow ||| UV_TRIG` and never changes the shadow. -/
theorem trigger_parts {E : Type} (d : Veml6075 E) :
    (Veml6075.trigger_measurement d).2.i2c.trace =
      d.i2c.trace ++ [Transaction.write DEVICE_ADDRESS
        [Register.CONFIG, d.config ||| BitFlags.UV_TRIG, 0]] ∧
    (Veml6075.trigger_measurement d).2.config = d.config := by
  unfold Veml6075.trigger_measurement I2c.busWrite
  cases d.i2c.replies d.i2c.count <;> simp

/-- Full output of `read_register` on a successful transaction. -/
theorem readRegister_ok {E : Type} (d : Veml6075 E) (r : Nat) (resp : List Nat)
    (h : d.i2c.replies d.i2c.count = BusReply.ok resp) :
    Veml6075.read_register d r =
      (Except.ok (decodeLE resp),
       ⟨⟨d.i2c.replies, d.i2c.count + 1,
         d.i2c.trace ++ [Transaction.writeRead DEVICE_ADDRESS [r]
           [resp.getD 0 0 % 256, resp.getD 1 0 % 256]]⟩, d.config⟩) := by
  unfold Veml6075.read_register I2c.busWriteRead decodeLE
  simp [h]

/-- Full output of `read_register` on a failed transaction. -/
theorem readRegister_err {E : Type} (d : Veml6075 E) (r : Nat) (e : E)
    (h : d.i2c.replies d.i2c.count = BusReply.err e) :
    Veml6075.read_register d r =
      (Except.error (Error.I2C e),
       ⟨⟨d.i2c.replies, d.i2c.count + 1,
         d.i2c.trace ++ [Transaction.writeRead DEVICE_ADDRESS [r] [0, 0]]⟩,
        d.config⟩) := by
  unfold Veml6075.read_register I2c.busWriteRead
  simp [h]

/-- `read_register` never changes the shadow. -/
theorem readRegister_config {E : Type} (d : Veml6075 E) (r : Nat) :
    (Veml6075.read_register d r).2.config = d.config := by
  unfold Veml6075.read_register I2c.busWriteRead
  cases d.i2c.replies d.i2c.count <;> simp

/-- `read_all` never changes the shadow (success or failure at any step). -/
theorem read_all_config {E : Type} (d : Veml6075 E) :
    (Veml6075.read_all d).2.config = d.config := by
  unfold Veml6075.read_all Veml6075.read_uva Veml6075.read_uvb
    Veml6075.read_uvcomp1 Veml6075.read_uvcomp2 Veml6075.read_register
    I2c.busWriteRead
  cases d.i2c.replies d.i2c.count <;> simp
  cases d.i2c.replies (d.i2c.count + 1) <;> simp
  cases d.i2c.replies (d.i2c.count + 1 + 1) <;> simp
  cases d.i2c.replies (d.i2c.count + 1 + 1 + 1) <;> simp

/-- Full output of `read_all` when all four transactions succeed: the four
write-read transactions appear in the fixed order UVA (0x07), UVB (0x09),
UVCOMP1 (0x0A), UVCOMP2 (0x0B), and each field is the little-endian
decoding of the corresponding response. -/
theorem read_all_ok {E : Type} (d : Veml6075 E) (r0 r1 r2 r3 : List Nat)
    (h0 : d.i2c.replies d.i2c.count = BusReply.ok r0)
    (h1 : d.i2c.replies (d.i2c.count + 1) = BusReply.ok r1)
    (h2 : d.i2c.replies (d.i2c.count + 2) = BusReply.ok r2)
    (h3 : d.i2c.replies (d.i2c.count + 3) = BusReply.ok r3) :
    Veml6075.read_all d =
      (Except.ok ⟨decodeLE r0, decodeLE r1, decodeLE r2, decodeLE r3⟩,
       ⟨⟨d.i2c.replies, d.i2c.count + 4,
         d.i2c.trace ++
          [Transaction.writeRead 0x10 [0x07] [r0.getD 0 0 % 256, r0.getD 1 0 % 256],
           Transaction.writeRead 0x10 [0x09] [r1.getD 0 0 % 256, r1.getD 1 0 % 256],
           Transaction.writeRead 0x10 [0x0A] [r2.getD 0 0 % 256, r2.getD 1 0 % 256],
           Transaction.writeRead 0x10 [0x0B] [r3.getD 0 0 % 256, r3.getD 1 0 % 256]]⟩,
        d.config⟩) := by
  unfold Veml6075.read_all Veml6075.read_uva Veml6075.read_uvb
    Veml6075.read_uvcomp1 Veml6075.read_uvcomp2 Veml6075.read_register
    I2c.busWriteRead
  simp [h0, h1, h2, h3, decodeLE, DEVICE_ADDRESS, Register.UVA, Register.UVB,
    Register.UVCOMP1, Register.UVCOMP2]

/-- Claim C9: if the sub-read at position `j` of `read_all` is the first to
fail, `read_all` (and the calibrated `read`, modelled from the spec on top of
`read_all`) returns exactly that sub-read's wrapped error, only `j + 1`
transactions were attempted (no later sub-read is issued), and no measurement
value is returned to the caller. -/
theorem read_all_aborts_on_first_error {E : Type} (d : Veml6075 E)
    (cal : Calibration) (j : Nat) (e : E) (hj : j < 4)
    (hfail : d.i2c.replies (d.i2c.count + j) = BusReply.err e)
    (hok : ∀ i, i < j → ∃ r, d.i2c.replies (d.i2c.count + i) = BusReply.ok r) :
    (Veml6075.read_all d).1 = Except.error (Error.I2C e) ∧
    (Veml6075.read_all d).2.i2c.count = d.i2c.count + (j + 1) ∧
    (Veml6075.read_all d).2.i2c.trace.length = d.i2c.trace.length + (j + 1) ∧
    (Veml6075.read d cal).1 = Except.error (Error.I2C e) := by
  interval_cases j
  · have h0 : d.i2c.replies d.i2c.count = BusReply.err e := by simpa using hfail
    unfold Veml6075.read Veml6075.read_all Veml6075.read_uva Veml6075.read_uvb
      Veml6075.read_uvcomp1 Veml6075.read_uvcomp2 Veml6075.read_register
      I2c.busWriteRead
    simp [h0]
  · obtain ⟨r0, h0⟩ := hok 0 (by omega)
    have h0' : d.i2c.replies d.i2c.count = BusReply.ok r0 := by simpa using h0
    unfold Veml6075.read Veml6075.read_all Veml6075.read_uva Veml6075.read_uvb
      Veml6075.read_uvcomp1 Veml6075.read_uvcomp2 Veml6075.read_register
      I2c.busWriteRead
    simp [h0', hfail]
  · obtain ⟨r0, h0⟩ := hok 0 (by omega)
    obtain ⟨r1, h1⟩ := hok 1 (by omega)
    have h0' : d.i2c.replies d.i2c.count = BusReply.ok r0 := by simpa using h0
    unfold Veml6075.read Veml6075.read_all Veml6075.read_uva Veml6075.read_uvb
      Veml6075.read_uvcomp1 Veml6075.read_uvcomp2 Veml6075.read_register
      I2c.busWriteRead
    simp [h0', h1, hfail]
  · obtain ⟨r0, h0⟩ := hok 0 (by omega)
    obtain ⟨r1, h1⟩ := hok 1 (by omega)
    obtain ⟨r2, h2⟩ := hok 2 (by omega)
    have h0' : d.i2c.replies d.i2c.count = BusReply.ok r0 := by simpa using h0
    unfold Veml6075.read Veml6075.read_all Veml6075.read_uva Veml6075.read_uvb
      Veml6075.read_uvcomp1 Veml6075.read_uvcomp2 Veml6075.read_register
      I2c.busWriteRead
    simp [h0', h1, h2, hfail]

/-- A mock bus that acknowledges every transaction (empty responses). -/
def busOk : I2c Unit :=
  ⟨fun _ => BusReply.ok [], 0, []⟩

/-- A mock bus programmed with the raw response bytes of the spec's
`read_all` example. -/
def busRaw : I2c Unit :=
  ⟨fun n => BusReply.ok
      ([[0x34, 0x12], [0x78, 0x56], [0xBC, 0x9A], [0xF0, 0xDE]].getD n []),
   0, []⟩

/-- A mock bus whose second transaction (the UVB sub-read) fails. -/
def busFailUvb : I2c Unit :=
  ⟨fun n => if n = 1 then BusReply.err () else BusReply.ok [], 0, []⟩

/-- A mock bus programmed with the raw response bytes of the calibrated
`read()` example (raw values 3967, 5818, 1007, 727). -/
def busCal : I2c Unit :=
  ⟨fun n => BusReply.ok
      ([[0x7F, 0x0F], [0xBA, 0x16], [0xEF, 0x03], [0xD7, 0x02]].getD n []),
   0, []⟩

/-- Claim C1 (counterexample): from the post-construction shadow `0x01`,
`trigger_measurement` issues the single write `[CONFIG, 0x05, 0]` — the byte
is `shadow ||| 0b00000100` (`UV_TRIG`, bit 2) — and not
`shadow ||| 0b00000010 = 0x03` as the claim's bit layout states. -/
theorem trigger_bit1_counterexample :
    (Veml6075.trigger_measurement (Veml6075.new busOk)).2.i2c.trace =
      [Transaction.write DEVICE_ADDRESS [Register.CONFIG, 0x05, 0]] ∧
    ¬ ((Veml6075.trigger_measurement (Veml6075.new busOk)).2.i2c.trace =
      [Transaction.write DEVICE_ADDRESS
        [Register.CONFIG, 0x01 ||| 0b00000010, 0]]) := by
  constructor
  · rfl
  · decide

/-- Claim C1 (amended: the trigger bit is `UV_TRIG = 0b00000100`, bit 2 of the
register, not `0b00000010`): for every driver state, `trigger_measurement`
issues exactly one bus write whose configuration byte is
`shadow ||| UV_TRIG`, and afterwards the shadow still equals its pre-trigger
value, so any subsequent configuration operation computes from it. -/
theorem trigger_measurement_writes_uv_trig {E : Type} (d : Veml6075 E) :
    (Veml6075.trigger_measurement d).2.i2c.trace =
      d.i2c.trace ++ [Transaction.write DEVICE_ADDRESS
        [Register.CONFIG, d.config ||| BitFlags.UV_TRIG, 0]] ∧
    (Veml6075.trigger_measurement d).2.i2c.count = d.i2c.count + 1 ∧
    (Veml6075.trigger_measurement d).2.config = d.config := by
  refine ⟨(trigger_parts d).1, ?_, (trigger_parts d).2⟩
  unfold Veml6075.trigger_measurement I2c.busWrite
  cases d.i2c.replies d.i2c.count <;> simp

/-- Claim C2 (counterexample): with shadow `0`, `set_mode(ActiveForce)`
writes the configuration byte `0b00000010` (bit 1), whose bit 2 is clear —
not byte `0b00000100` (bit 2 set) as the claim's bit layout states. -/
theorem set_mode_bit2_counterexample :
    (Veml6075.set_mode (⟨busOk, 0⟩ : Veml6075 Unit) Mode.ActiveForce).2.i2c.trace =
      [Transaction.write DEVICE_ADDRESS [Register.CONFIG, 0b00000010, 0]] ∧
    (0b00000010 : Nat) &&& 0b00000100 = 0 ∧
    ¬ ((Veml6075.set_mode (⟨busOk, 0⟩ : Veml6075 Unit) Mode.ActiveForce).2.i2c.trace =
      [Transaction.write DEVICE_ADDRESS [Register.CONFIG, 0b00000100, 0]]) := by
  refine ⟨rfl, rfl, ?_⟩
  decide

/-- Claim C2 (amended: the active-force field is `UV_AF = 0b00000010`, bit 1
of the register, not bit 2): for every shadow value, `set_mode(ActiveForce)`
writes `shadow ||| UV_AF` and `set_mode(Continuous)` writes
`shadow &&& !UV_AF`, in both cases leaving every register bit outside the
`UV_AF` field unchanged. -/
theorem set_mode_writes_uv_af_bit {E : Type} (d : Veml6075 E) :
    (Veml6075.set_mode d Mode.ActiveForce).2.i2c.trace =
      d.i2c.trace ++ [Transaction.write DEVICE_ADDRESS
        [Register.CONFIG, d.config ||| BitFlags.UV_AF, 0]] ∧
    (Veml6075.set_mode d Mode.Continuous).2.i2c.trace =
      d.i2c.trace ++ [Transaction.write DEVICE_ADDRESS
        [Register.CONFIG, d.config &&& (0xFF ^^^ BitFlags.UV_AF), 0]] ∧
    (d.config ||| BitFlags.UV_AF) &&& (0xFF ^^^ BitFlags.UV_AF) =
      d.config &&& (0xFF ^^^ BitFlags.UV_AF) ∧
    (d.config &&& (0xFF ^^^ BitFlags.UV_AF)) &&& (0xFF ^^^ BitFlags.UV_AF) =
      d.config &&& (0xFF ^^^ BitFlags.UV_AF) := by
  refine ⟨writeConfig_trace d _, writeConfig_trace d _, ?_, land_land_self _ _⟩
  exact lor_land_of_disjoint _ _ _ (by decide)

/-- Claim C3 (counterexample): `new()` issues no bus transaction at all — in
particular it does not write any configuration value (with bit 0 set or
otherwise) to the device. -/
theorem new_writes_counterexample :
    ¬ ∃ addr bytes,
        Transaction.write addr bytes ∈ (Veml6075.new busOk).i2c.trace := by
  intro ⟨a, b, hmem⟩
  simp [Veml6075.new, busOk] at hmem

/-- Claim C3 (amended: construction performs no hardware access): `new()`
hands the bus back untouched — no configuration write is issued — and
establishes the initial shadow as exactly `0x01` (shutdown bit set, all
other bits 0); the hardware is assumed, not forced, to be shut down. -/
theorem new_no_bus_write_shadow_one {E : Type} (bus : I2c E) :
    (Veml6075.new bus).i2c = bus ∧ (Veml6075.new bus).config = 0x01 :=
  ⟨rfl, rfl⟩

/-- Claim C10: every raw read operation (`read_uva`, `read_uvb`,
`read_uvcomp1`, `read_uvcomp2`, `read_device_id`, `read_all`) leaves the
configuration shadow unchanged, whether the bus transaction succeeds or
fails, for every shadow value. -/
theorem raw_reads_preserve_config_shadow {E : Type} (d : Veml6075 E) :
    (Veml6075.read_uva d).2.config = d.config ∧
    (Veml6075.read_uvb d).2.config = d.config ∧
    (Veml6075.read_uvcomp1 d).2.config = d.config ∧
    (Veml6075.read_uvcomp2 d).2.config = d.config ∧
    (Veml6075.read_device_id d).2.config = d.config ∧
    (Veml6075.read_all d).2.config = d.config :=
  ⟨readRegister_config d _, readRegister_config d _, readRegister_config d _,
   readRegister_config d _, readRegister_config d _, read_all_config d⟩

/-- On a successful bus write `write_config` updates the shadow to the
written byte. -/
theorem writeConfig_ok_config {E : Type} (d : Veml6075 E) (c : Nat)
    (hok : (Veml6075.write_config d c).1 = Except.ok ()) :
    (Veml6075.write_config d c).2.config = c := by
  have h2 := writeConfig_outcome d c
  unfold opOutcome at h2
  rcases hr : d.i2c.replies d.i2c.count with r | e <;> simp only [hr] at h2
  · exact h2.2
  · exact absurd (h2.1.symm.trans hok) (by simp)

/-- Claim C5: for every configuration operation (`enable`, `disable`,
`set_mode`, `set_integration_time`, `set_dynamic_setting`) and every shadow
value, a failed bus write returns the wrapped transport error and leaves the
shadow exactly as before; the shadow becomes the newly computed byte only
when the bus write succeeds. -/
theorem config_ops_shadow_consistency {E : Type} (d : Veml6075 E)
    (m : Mode) (it : IntegrationTime) (ds : DynamicSetting) :
    opOutcome d (Veml6075.enable d) (d.config &&& (0xFF ^^^ BitFlags.SHUTDOWN)) ∧
    opOutcome d (Veml6075.disable d) (d.config ||| BitFlags.SHUTDOWN) ∧
    opOutcome d (Veml6075.set_mode d m)
      (match m with
       | Mode.Continuous => d.config &&& (0xFF ^^^ BitFlags.UV_AF)
       | Mode.ActiveForce => d.config ||| BitFlags.UV_AF) ∧
    opOutcome d (Veml6075.set_integration_time d it)
      ((d.config &&& 0b10001111) ||| itCode it <<< 4) ∧
    opOutcome d (Veml6075.set_dynamic_setting d ds)
      (match ds with
       | DynamicSetting.Normal => d.config &&& (0xFF ^^^ BitFlags.HD)
       | DynamicSetting.High => d.config ||| BitFlags.HD) := by
  refine ⟨writeConfig_outcome d _, writeConfig_outcome d _, ?_, ?_, ?_⟩
  · cases m <;> exact writeConfig_outcome d _
  · cases it <;> simp only [itCode, Nat.zero_shiftLeft, Nat.or_zero] <;>
      exact writeConfig_outcome d _
  · cases ds <;> exact writeConfig_outcome d _

/-- Claim C7: for every `IntegrationTime` and every shadow value,
`set_integration_time` writes the configuration byte
`(shadow &&& 0b10001111) ||| (code <<< 4)` with code 0,1,2,3,4 for
50,100,200,400,800 ms, and on success the shadow equals that byte. -/
theorem set_integration_time_byte {E : Type} (d : Veml6075 E)
    (it : IntegrationTime) :
    itCode IntegrationTime.Ms50 = 0 ∧ itCode IntegrationTime.Ms100 = 1 ∧
    itCode IntegrationTime.Ms200 = 2 ∧ itCode IntegrationTime.Ms400 = 3 ∧
    itCode IntegrationTime.Ms800 = 4 ∧
    (Veml6075.set_integration_time d it).2.i2c.trace =
      d.i2c.trace ++ [Transaction.write DEVICE_ADDRESS
        [Register.CONFIG, (d.config &&& 0b10001111) ||| itCode it <<< 4, 0]] ∧
    ((Veml6075.set_integration_time d it).1 = Except.ok () →
      (Veml6075.set_integration_time d it).2.config =
        (d.config &&& 0b10001111) ||| itCode it <<< 4) := by
  refine ⟨rfl, rfl, rfl, rfl, rfl, ?_, ?_⟩
  · cases it <;> simp only [itCode, Nat.zero_shiftLeft, Nat.or_zero] <;>
      exact writeConfig_trace d _
  · cases it <;>
      simp only [itCode, Nat.zero_shiftLeft, Nat.or_zero] <;>
      exact fun hok => writeConfig_ok_config d _ hok

/-- Witness for claim C7 at `IntegrationTime.Ms200` from the
post-construction state: the bus write succeeds and the shadow becomes
`(0x01 &&& 0b10001111) ||| (2 <<< 4) = 0x21`. -/
theorem set_integration_time_byte_witness :
    (Veml6075.set_integration_time (Veml6075.new busOk) IntegrationTime.Ms200).1 =
      Except.ok () ∧
    (Veml6075.set_integration_time (Veml6075.new busOk) IntegrationTime.Ms200).2.config =
      0x21 :=
  ⟨rfl,
   ((set_integration_time_byte (Veml6075.new busOk) IntegrationTime.Ms200).2.2.2.2.2.2
     rfl).trans rfl⟩

/-- Claim C8: `read_all` issues exactly four write-read transactions, in the
fixed order UVA (0x07), UVB (0x09), UVCOMP1 (0x0A), UVCOMP2 (0x0B), and
returns a raw measurement whose fields are the little-endian decodings
`low_byte ||| (high_byte <<< 8)` of the corresponding response bytes. -/
theorem read_all_order_and_decode {E : Type} (d : Veml6075 E)
    (r0 r1 r2 r3 : List Nat)
    (h0 : d.i2c.replies d.i2c.count = BusReply.ok r0)
    (h1 : d.i2c.replies (d.i2c.count + 1) = BusReply.ok r1)
    (h2 : d.i2c.replies (d.i2c.count + 2) = BusReply.ok r2)
    (h3 : d.i2c.replies (d.i2c.count + 3) = BusReply.ok r3) :
    (Veml6075.read_all d).1 =
      Except.ok ⟨decodeLE r0, decodeLE r1, decodeLE r2, decodeLE r3⟩ ∧
    (Veml6075.read_all d).2.i2c.trace = d.i2c.trace ++
      [Transaction.writeRead 0x10 [0x07] [r0.getD 0 0 % 256, r0.getD 1 0 % 256],
       Transaction.writeRead 0x10 [0x09] [r1.getD 0 0 % 256, r1.getD 1 0 % 256],
       Transaction.writeRead 0x10 [0x0A] [r2.getD 0 0 % 256, r2.getD 1 0 % 256],
       Transaction.writeRead 0x10 [0x0B] [r3.getD 0 0 % 256, r3.getD 1 0 % 256]] ∧
    (Veml6075.read_all d).2.i2c.count = d.i2c.count + 4 := by
  rw [read_all_ok d r0 r1 r2 r3 h0 h1 h2 h3]
  exact ⟨rfl, rfl, rfl⟩

/-- Witness for claim C8 with the spec's example bytes: raw responses
`[0x34,0x12]`, `[0x78,0x56]`, `[0xBC,0x9A]`, `[0xF0,0xDE]` decode to
`{uva := 0x1234, uvb := 0x5678, uvcomp1 := 0x9ABC, uvcomp2 := 0xDEF0}`,
read in the fixed register order. -/
theorem read_all_order_and_decode_witness :
    (Veml6075.read_all (Veml6075.new busRaw)).1 =
      Except.ok ⟨0x1234, 0x5678, 0x9ABC, 0xDEF0⟩ ∧
    (Veml6075.read_all (Veml6075.new busRaw)).2.i2c.trace =
      [Transaction.writeRead 0x10 [0x07] [0x34, 0x12],
       Transaction.writeRead 0x10 [0x09] [0x78, 0x56],
       Transaction.writeRead 0x10 [0x0A] [0xBC, 0x9A],
       Transaction.writeRead 0x10 [0x0B] [0xF0, 0xDE]] := by
  have h := read_all_order_and_decode (Veml6075.new busRaw)
    [0x34, 0x12] [0x78, 0x56] [0xBC, 0x9A] [0xF0, 0xDE] rfl rfl rfl rfl
  exact ⟨h.1.trans rfl, h.2.1.trans rfl⟩

/-- Witness for claim C9: with the UVB sub-read (position 1) failing,
`read_all` returns the wrapped bus error after exactly two transactions, and
the calibrated `read` surfaces the same error. -/
theorem read_all_aborts_on_first_error_witness :
    (Veml6075.read_all (Veml6075.new busFailUvb)).1 =
      Except.error (Error.I2C ()) ∧
    (Veml6075.read_all (Veml6075.new busFailUvb)).2.i2c.count = 2 ∧
    (Veml6075.read (Veml6075.new busFailUvb) Calibration.default).1 =
      Except.error (Error.I2C ()) := by
  have h := read_all_aborts_on_first_error (Veml6075.new busFailUvb)
    Calibration.default 1 () (by decide) rfl
    (fun i hi => by interval_cases i; exact ⟨[], rfl⟩)
  exact ⟨h.1, h.2.1.trans rfl, h.2.2.2⟩

/-- Claim C4 (calibrated variant modelled from the spec with exact
rationals): the default `Calibration` is exactly
`{2.22, 1.33, 2.95, 1.74, 0.001461, 0.002591}`; `read()` applies the linear
compensation formula to the four raw reads; and on the documented raws
`UVA=3967, UVB=5818, UVCOMP1=1007, UVCOMP2=727` (read in the fixed order
UVA, UVB, UVCOMP1, UVCOMP2) it yields exactly the documented values. -/
theorem read_calibrated_default_formula :
    Calibration.default =
      ⟨222 / 100, 133 / 100, 295 / 100, 174 / 100,
       1461 / 1000000, 2591 / 1000000⟩ ∧
    (∀ (E : Type) (d : Veml6075 E) (cal : Calibration),
      (Veml6075.read d cal).1 =
        match (Veml6075.read_all d).1 with
        | Except.error e => Except.error e
        | Except.ok raw =>
            Except.ok
              ⟨(raw.uva : ℚ) - cal.uva_visible * (raw.uvcomp1 : ℚ)
                  - cal.uva_ir * (raw.uvcomp2 : ℚ),
               (raw.uvb : ℚ) - cal.uvb_visible * (raw.uvcomp1 : ℚ)
                  - cal.uvb_ir * (raw.uvcomp2 : ℚ),
               (((raw.uva : ℚ) - cal.uva_visible * (raw.uvcomp1 : ℚ)
                    - cal.uva_ir * (raw.uvcomp2 : ℚ)) * cal.uva_responsivity
                 + ((raw.uvb : ℚ) - cal.uvb_visible * (raw.uvcomp1 : ℚ)
                    - cal.uvb_ir * (raw.uvcomp2 : ℚ)) * cal.uvb_responsivity)
                  / 2⟩) ∧
    (Veml6075.read (Veml6075.new busCal) Calibration.default).1 =
      Except.ok
        ⟨(3967 : ℚ) - (222 / 100) * 1007 - (133 / 100) * 727,
         (5818 : ℚ) - (295 / 100) * 1007 - (174 / 100) * 727,
         (((3967 : ℚ) - (222 / 100) * 1007 - (133 / 100) * 727) * (1461 / 1000000)
           + ((5818 : ℚ) - (295 / 100) * 1007 - (174 / 100) * 727)
               * (2591 / 1000000)) / 2⟩ ∧
    (Veml6075.read (Veml6075.new busCal) Calibration.default).2.i2c.trace =
      [Transaction.writeRead 0x10 [0x07] [0x7F, 0x0F],
       Transaction.writeRead 0x10 [0x09] [0xBA, 0x16],
       Transaction.writeRead 0x10 [0x0A] [0xEF, 0x03],
       Transaction.writeRead 0x10 [0x0B] [0xD7, 0x02]] := by
  refine ⟨rfl, ?_, ?_, ?_⟩
  · intro E d cal
    unfold Veml6075.read
    rcases h : Veml6075.read_all d with ⟨res, dev⟩
    cases res <;> simp
  · rfl
  · rfl

/-- Or-ing in bits disjoint from `UV_TRIG` keeps the trigger bit clear. -/
theorem trig_of_lor (c a : Nat) (ha : a &&& BitFlags.UV_TRIG = 0)
    (h : c &&& BitFlags.UV_TRIG = 0) :
    (c ||| a) &&& BitFlags.UV_TRIG = 0 := by
  rw [lor_land_of_disjoint c a _ ha, h]

/-- Masking with a mask that keeps `UV_TRIG` keeps the trigger bit clear. -/
theorem trig_of_land (c b : Nat)
    (hb : b &&& BitFlags.UV_TRIG = BitFlags.UV_TRIG)
    (h : c &&& BitFlags.UV_TRIG = 0) :
    (c &&& b) &&& BitFlags.UV_TRIG = 0 := by
  rw [Nat.and_assoc, hb, h]

/-- One driver operation preserves "the trigger bit is clear in the shadow". -/
theorem runOp_trigClear {E : Type} (op : Op) (d : Veml6075 E)
    (h : d.config &&& BitFlags.UV_TRIG = 0) :
    (runOp op d).config &&& BitFlags.UV_TRIG = 0 := by
  cases op with
  | opEnable =>
      rcases writeConfig_config_cases d (d.config &&& (0xFF ^^^ BitFlags.SHUTDOWN))
        with hc | hc <;> rw [show (runOp Op.opEnable d).config = _ from hc]
      · exact trig_of_land _ _ (by decide) h
      · exact h
  | opDisable =>
      rcases writeConfig_config_cases d (d.config ||| BitFlags.SHUTDOWN)
        with hc | hc <;> rw [show (runOp Op.opDisable d).config = _ from hc]
      · exact trig_of_lor _ _ (by decide) h
      · exact h
  | opSetMode m =>
      cases m with
      | Continuous =>
          rcases writeConfig_config_cases d (d.config &&& (0xFF ^^^ BitFlags.UV_AF))
            with hc | hc <;>
            rw [show (runOp (Op.opSetMode Mode.Continuous) d).config = _ from hc]
          · exact trig_of_land _ _ (by decide) h
          · exact h
      | ActiveForce =>
          rcases writeConfig_config_cases d (d.config ||| BitFlags.UV_AF)
            with hc | hc <;>
            rw [show (runOp (Op.opSetMode Mode.ActiveForce) d).config = _ from hc]
          · exact trig_of_lor _ _ (by decide) h
          · exact h
  | opSetIt it =>
      cases it with
      | Ms50 =>
          rcases writeConfig_config_cases d (d.config &&& 0b10001111)
            with hc | hc <;>
            rw [show (runOp (Op.opSetIt IntegrationTime.Ms50) d).config = _ from hc]
          · exact trig_of_land _ _ (by decide) h
          · exact h
      | Ms100 =>
          rcases writeConfig_config_cases d ((d.config &&& 0b10001111) ||| 1 <<< 4)
            with hc | hc <;>
            rw [show (runOp (Op.opSetIt IntegrationTime.Ms100) d).config = _ from hc]
          · exact trig_of_lor _ _ (by decide) (trig_of_land _ _ (by decide) h)
          · exact h
      | Ms200 =>
          rcases writeConfig_config_cases d ((d.config &&& 0b10001111) ||| 2 <<< 4)
            with hc | hc <;>
            rw [show (runOp (Op.opSetIt IntegrationTime.Ms200) d).config = _ from hc]
          · exact trig_of_lor _ _ (by decide) (trig_of_land _ _ (by decide) h)
          · exact h
      | Ms400 =>
          rcases writeConfig_config_cases d ((d.config &&& 0b10001111) ||| 3 <<< 4)
            with hc | hc <;>
            rw [show (runOp (Op.opSetIt IntegrationTime.Ms400) d).config = _ from hc]
          · exact trig_of_lor _ _ (by decide) (trig_of_land _ _ (by decide) h)
          · exact h
      | Ms800 =>
          rcases writeConfig_config_cases d ((d.config &&& 0b10001111) ||| 4 <<< 4)
            with hc | hc <;>
            rw [show (runOp (Op.opSetIt IntegrationTime.Ms800) d).config = _ from hc]
          · exact trig_of_lor _ _ (by decide) (trig_of_land _ _ (by decide) h)
          · exact h
  | opSetDs ds =>
      cases ds with
      | Normal =>
          rcases writeConfig_config_cases d (d.config &&& (0xFF ^^^ BitFlags.HD))
            with hc | hc <;>
            rw [show (runOp (Op.opSetDs DynamicSetting.Normal) d).config = _ from hc]
          · exact trig_of_land _ _ (by decide) h
          · exact h
      | High =>
          rcases writeConfig_config_cases d (d.config ||| BitFlags.HD)
            with hc | hc <;>
            rw [show (runOp (Op.opSetDs DynamicSetting.High) d).config = _ from hc]
          · exact trig_of_lor _ _ (by decide) h
          · exact h
  | opTrigger => rw [show (runOp Op.opTrigger d).config = _ from (trigger_parts d).2]; exact h
  | opReadUva => rw [show (runOp Op.opReadUva d).config = _ from readRegister_config d _]; exact h
  | opReadUvb => rw [show (runOp Op.opReadUvb d).config = _ from readRegister_config d _]; exact h
  | opReadUvcomp1 => rw [show (runOp Op.opReadUvcomp1 d).config = _ from readRegister_config d _]; exact h
  | opReadUvcomp2 => rw [show (runOp Op.opReadUvcomp2 d).config = _ from readRegister_config d _]; exact h
  | opReadDeviceId => rw [show (runOp Op.opReadDeviceId d).config = _ from readRegister_config d _]; exact h
  | opReadAll => rw [show (runOp Op.opReadAll d).config = _ from read_all_config d]; exact h

/-- In every reachable driver state the trigger bit is clear in the shadow. -/
theorem runOps_trigClear {E : Type} (ops : List Op) (d : Veml6075 E)
    (h : d.config &&& BitFlags.UV_TRIG = 0) :
    (runOps ops d).config &&& BitFlags.UV_TRIG = 0 := by
  induction ops generalizing d with
  | nil => exact h
  | cons op rest ih => exact ih (runOp op d) (runOp_trigClear op d h)

/-- Claim C6: in every reachable driver state, each configuration write
(`enable`, `disable`, `set_mode`, `set_integration_time`,
`set_dynamic_setting`) produces a byte that agrees with the current shadow on
every register bit outside the field it semantically touches, and the trigger
bit of a written byte is always computed fresh from the shadow: the reachable
shadow never has the trigger bit set, `trigger_measurement` ors it in anew on
each call without altering any other field, and never stores it back. -/
theorem config_writes_touch_only_their_field {E : Type} (bus : I2c E)
    (ops : List Op) (it : IntegrationTime) :
    let d := runOps ops (Veml6075.new bus)
    d.config &&& BitFlags.UV_TRIG = 0 ∧
    ((Veml6075.enable d).2.i2c.trace = d.i2c.trace ++
        [Transaction.write DEVICE_ADDRESS
          [Register.CONFIG, d.config &&& (0xFF ^^^ BitFlags.SHUTDOWN), 0]] ∧
      (d.config &&& (0xFF ^^^ BitFlags.SHUTDOWN)) &&& (0xFF ^^^ BitFlags.SHUTDOWN) =
        d.config &&& (0xFF ^^^ BitFlags.SHUTDOWN)) ∧
    ((Veml6075.disable d).2.i2c.trace = d.i2c.trace ++
        [Transaction.write DEVICE_ADDRESS
          [Register.CONFIG, d.config ||| BitFlags.SHUTDOWN, 0]] ∧
      (d.config ||| BitFlags.SHUTDOWN) &&& (0xFF ^^^ BitFlags.SHUTDOWN) =
        d.config &&& (0xFF ^^^ BitFlags.SHUTDOWN)) ∧
    ((Veml6075.set_mode d Mode.ActiveForce).2.i2c.trace = d.i2c.trace ++
        [Transaction.write DEVICE_ADDRESS
          [Register.CONFIG, d.config ||| BitFlags.UV_AF, 0]] ∧
      (d.config ||| BitFlags.UV_AF) &&& (0xFF ^^^ BitFlags.UV_AF) =
        d.config &&& (0xFF ^^^ BitFlags.UV_AF)) ∧
    ((Veml6075.set_mode d Mode.Continuous).2.i2c.trace = d.i2c.trace ++
        [Transaction.write DEVICE_ADDRESS
          [Register.CONFIG, d.config &&& (0xFF ^^^ BitFlags.UV_AF), 0]] ∧
      (d.config &&& (0xFF ^^^ BitFlags.UV_AF)) &&& (0xFF ^^^ BitFlags.UV_AF) =
        d.config &&& (0xFF ^^^ BitFlags.UV_AF)) ∧
    ((Veml6075.set_integration_time d it).2.i2c.trace = d.i2c.trace ++
        [Transaction.write DEVICE_ADDRESS
          [Register.CONFIG, (d.config &&& 0b10001111) ||| itCode it <<< 4, 0]] ∧
      ((d.config &&& 0b10001111) ||| itCode it <<< 4) &&& (0xFF ^^^ 0b01110000) =
        d.config &&& (0xFF ^^^ 0b01110000)) ∧
    ((Veml6075.set_dynamic_setting d DynamicSetting.High).2.i2c.trace =
        d.i2c.trace ++ [Transaction.write DEVICE_ADDRESS
          [Register.CONFIG, d.config ||| BitFlags.HD, 0]] ∧
      (d.config ||| BitFlags.HD) &&& (0xFF ^^^ BitFlags.HD) =
        d.config &&& (0xFF ^^^ BitFlags.HD)) ∧
    ((Veml6075.set_dynamic_setting d DynamicSetting.Normal).2.i2c.trace =
        d.i2c.trace ++ [Transaction.write DEVICE_ADDRESS
          [Register.CONFIG, d.config &&& (0xFF ^^^ BitFlags.HD), 0]] ∧
      (d.config &&& (0xFF ^^^ BitFlags.HD)) &&& (0xFF ^^^ BitFlags.HD) =
        d.config &&& (0xFF ^^^ BitFlags.HD)) ∧
    ((Veml6075.trigger_measurement d).2.i2c.trace = d.i2c.trace ++
        [Transaction.write DEVICE_ADDRESS
          [Register.CONFIG, d.config ||| BitFlags.UV_TRIG, 0]] ∧
      (d.config ||| BitFlags.UV_TRIG) &&& (0xFF ^^^ BitFlags.UV_TRIG) =
        d.config &&& (0xFF ^^^ BitFlags.UV_TRIG) ∧
      (Veml6075.trigger_measurement d).2.config = d.config) := by
  intro d
  refine ⟨runOps_trigClear ops _ (by show (0x01 : Nat) &&& BitFlags.UV_TRIG = 0; decide),
    ⟨writeConfig_trace d _, land_land_self _ _⟩,
    ⟨writeConfig_trace d _, lor_land_of_disjoint _ _ _ (by decide)⟩,
    ⟨writeConfig_trace d _, lor_land_of_disjoint _ _ _ (by decide)⟩,
    ⟨writeConfig_trace d _, land_land_self _ _⟩,
    ⟨?_, ?_⟩,
    ⟨writeConfig_trace d _, lor_land_of_disjoint _ _ _ (by decide)⟩,
    ⟨writeConfig_trace d _, land_land_self _ _⟩,
    (trigger_parts d).1, lor_land_of_disjoint _ _ _ (by decide),
    (trigger_parts d).2⟩
  · cases it <;> simp only [itCode, Nat.zero_shiftLeft, Nat.or_zero] <;>
      exact writeConfig_trace d _
  · have h1 : (itCode it <<< 4) &&& (0xFF ^^^ 0b01110000) = 0 := by
      cases it <;> decide
    rw [lor_land_of_disjoint _ _ _ h1, Nat.and_assoc,
      (by decide : (0b10001111 : Nat) &&& (0xFF ^^^ 0b01110000) =
        (0xFF ^^^ 0b01110000))]
